import Mathlib

/-!
Verification of the MEVBot repository's opportunity-detection and
risk-scoring pipeline.

JavaScript numbers are modelled as rationals (`ℚ`), BigInt wei amounts as
integers (`ℤ`) or naturals (`ℕ`), and `Date.now()` / `new Date().toDateString()`
readings are passed explicitly as parameters (`now : ℕ`, `today : String`).
Mutable instance state (the price cache, the daily trading statistics, the
bot counters) is passed and returned explicitly.
-/

namespace MEVBot

/-! ## Configuration (src/config.js)

`minProfitEth` and `maxGasPrice` come from the environment (defaults 0.01
and 50); `maxSlippage` is hard-coded to 3.0 in the source, so it is a
constant here. -/

structure MevConfig where
  minProfitEth : ℚ
  maxGasPrice : ℕ
deriving DecidableEq

/-- Defaults from src/config.js: MIN_PROFIT_ETH 0.01, MAX_GAS_PRICE 50. -/
def defaultConfig : MevConfig := { minProfitEth := 1 / 100, maxGasPrice := 50 }

/-- Source `config.mev.maxSlippage`, hard-coded `3.0` in src/config.js. -/
def maxSlippage : ℚ := 3

/-- Source `ethers.parseUnits(maxGasPrice.toString(), 'gwei')`: the gas-price
ceiling in wei. -/
def gweiLimit (cfg : MevConfig) : ℕ := cfg.maxGasPrice * 10 ^ 9

/-! ## DexMonitor (src/monitor.js) -/

/-- A watched pair as stored in `watchedPairs` (token0, token1, exchange). -/
structure PairInfo where
  token0 : String
  token1 : String
  exchange : String
deriving DecidableEq

/-- A price observation as stored in the price cache (src/monitor.js,
`fetchPairPrice`). -/
structure PriceData where
  pairAddress : String
  token0 : String
  token1 : String
  reserve0 : ℕ
  reserve1 : ℕ
  price0 : ℚ
  price1 : ℚ
  exchange : String
  timestamp : ℕ
deriving DecidableEq

/-- Semantics of `Map.prototype.set` on an insertion-ordered association list: replaces
the value in place if the key exists, appends otherwise. -/
def cacheSet (k : String) (v : PriceData) :
    List (String × PriceData) → List (String × PriceData)
  | [] => [(k, v)]
  | (k₀, v₀) :: rest =>
      if k₀ = k then (k, v) :: rest else (k₀, v₀) :: cacheSet k v rest

/-- Source `DexMonitor.fetchPairPrice` (src/monitor.js lines 42-79): given the
reserves read for a watched pair, return the observation (or `none` for a
zero reserve) and the updated price cache. -/
def fetchPairPrice (pair : PairInfo) (pairAddress : String)
    (reserve0 reserve1 : ℕ) (now : ℕ) (cache : List (String × PriceData)) :
    Option PriceData × List (String × PriceData) :=
  if reserve0 = 0 ∨ reserve1 = 0 then (none, cache)
  else
    let price0 : ℚ := (reserve1 : ℚ) / (reserve0 : ℚ)
    let price1 : ℚ := (reserve0 : ℚ) / (reserve1 : ℚ)
    let priceData : PriceData :=
      { pairAddress := pairAddress, token0 := pair.token0, token1 := pair.token1,
        reserve0 := reserve0, reserve1 := reserve1,
        price0 := price0, price1 := price1,
        exchange := pair.exchange, timestamp := now }
    (some priceData, cacheSet pairAddress priceData cache)

/-- One leg of an arbitrage opportunity. -/
structure PairLeg where
  address : String
  exchange : String
  price : ℚ
deriving DecidableEq

/-- An arbitrage opportunity (src/monitor.js, `calculateArbitrage`). -/
structure Opportunity where
  pair1 : PairLeg
  pair2 : PairLeg
  profitPercent : ℚ
  token0 : String
  token1 : String
  timestamp : ℕ
deriving DecidableEq

/-- Source `DexMonitor.hasSameTokenPair` (src/monitor.js lines 102-107). -/
def hasSameTokenPair (p₁ p₂ : PriceData) : Bool :=
  (p₁.token0 == p₂.token0 && p₁.token1 == p₂.token1) ||
  (p₁.token0 == p₂.token1 && p₁.token1 == p₂.token0)

/-- The profit-percent formula of `calculateArbitrage` (src/monitor.js
lines 111-113): `|price1.price0 - price2.price0| / avg * 100`. -/
def profitPercentCalc (p₁ p₂ : PriceData) : ℚ :=
  let priceDiff := |p₁.price0 - p₂.price0|
  let avgPrice := (p₁.price0 + p₂.price0) / 2
  priceDiff / avgPrice * 100

/-- The opportunity object built by `calculateArbitrage` (src/monitor.js
lines 117-132). -/
def mkOpportunity (now : ℕ) (p₁ p₂ : PriceData) : Opportunity :=
  { pair1 := { address := p₁.pairAddress, exchange := p₁.exchange, price := p₁.price0 },
    pair2 := { address := p₂.pairAddress, exchange := p₂.exchange, price := p₂.price0 },
    profitPercent := profitPercentCalc p₁ p₂,
    token0 := p₁.token0, token1 := p₁.token1, timestamp := now }

/-- Source `DexMonitor.calculateArbitrage` (src/monitor.js lines 109-137):
opportunities under the 0.1% noise floor are discarded. -/
def calculateArbitrage (now : ℕ) (p₁ p₂ : PriceData) : Option Opportunity :=
  if profitPercentCalc p₁ p₂ < 1 / 10 then none else some (mkOpportunity now p₁ p₂)

/-- The body of the inner loop of `scanForArbitrageOpportunities`
(src/monitor.js lines 90-95): the opportunity pushed for a pair of cached
observations, if any. -/
def scanStep (cfg : MevConfig) (now : ℕ) (p₁ p₂ : PriceData) : Option Opportunity :=
  if hasSameTokenPair p₁ p₂ then
    match calculateArbitrage now p₁ p₂ with
    | some opp => if opp.profitPercent > cfg.minProfitEth * 100 then some opp else none
    | none => none
  else none

/-- The nested index loop of `scanForArbitrageOpportunities` (src/monitor.js
lines 85-97): for `i < j` over the cached observations in order, collect
`scanStep` results. -/
def scanCollect (cfg : MevConfig) (now : ℕ) : List PriceData → List Opportunity
  | [] => []
  | p :: rest => rest.filterMap (scanStep cfg now p) ++ scanCollect cfg now rest

/-- All position pairs `(i, j)` with `i < j`, in the encounter order of the
nested loop. -/
def orderedPairs : List α → List (α × α)
  | [] => []
  | p :: rest => rest.map (fun q => (p, q)) ++ orderedPairs rest

/-- Insertion step of a stable descending sort by `profitPercent`:
an element moves ahead only of strictly smaller keys, so ties keep their
original relative order. -/
def insertDesc (a : Opportunity) : List Opportunity → List Opportunity
  | [] => [a]
  | b :: l =>
      if b.profitPercent ≤ a.profitPercent then a :: b :: l else b :: insertDesc a l

/-- Source `opportunities.sort((a, b) => b.profitPercent - a.profitPercent)`
(src/monitor.js line 99): ECMAScript `Array.prototype.sort` is a stable
sort, here descending by `profitPercent`. -/
def sortDesc : List Opportunity → List Opportunity
  | [] => []
  | a :: l => insertDesc a (sortDesc l)

/-- Source `DexMonitor.scanForArbitrageOpportunities` (src/monitor.js lines
81-100), over the cached observations in insertion order. -/
def scanForArbitrageOpportunities (cfg : MevConfig) (now : ℕ)
    (prices : List PriceData) : List Opportunity :=
  sortDesc (scanCollect cfg now prices)

/-! ## RiskManager (src/risk.js) -/

/-- A risk level (`'medium' | 'high' | 'critical'`). -/
inductive RiskLevel
  | medium
  | high
  | critical
deriving DecidableEq

/-- One risk entry pushed by `assessTradeRisk`. -/
structure Risk where
  level : RiskLevel
  reason : String
deriving DecidableEq

/-- The assessment object returned by `calculateRiskScore`. The source's
early return for an empty risk list builds an object with no
`recommendation` property, hence the `Option`. -/
structure RiskAssessment where
  approved : Bool
  score : ℕ
  risks : List Risk
  recommendation : Option String
deriving DecidableEq

/-- Source `RiskManager.getRiskRecommendation` (src/risk.js lines 130-136). -/
def getRiskRecommendation (score : ℕ) : String :=
  if score ≥ 100 then "REJECT - Critical risks present"
  else if score ≥ 50 then "REJECT - High risk"
  else if score ≥ 25 then "CAUTION - Medium risk"
  else if score ≥ 10 then "PROCEED - Low risk"
  else "PROCEED - Minimal risk"

/-- Count `risks.filter(r => r.level === lvl).length`. -/
def countLevel (lvl : RiskLevel) (risks : List Risk) : ℕ :=
  (risks.filter fun r => r.level == lvl).length

/-- Source `RiskManager.calculateRiskScore` (src/risk.js lines 101-128): an empty
risk list is returned early without a recommendation. -/
def calculateRiskScore (risks : List Risk) : RiskAssessment :=
  if risks = [] then { approved := true, score := 0, risks := [], recommendation := none }
  else
    let criticalCount := countLevel .critical risks
    let highCount := countLevel .high risks
    let mediumCount := countLevel .medium risks
    let score := criticalCount * 100 + highCount * 25 + mediumCount * 5
    let approved := decide (score < 50 ∧ criticalCount = 0)
    { approved := approved, score := score, risks := risks,
      recommendation := some (getRiskRecommendation score) }

/-- The daily trading statistics owned by the risk manager. Wei amounts are
BigInt in the source, modelled as `ℤ`. -/
structure DailyStats where
  trades : ℕ
  totalProfit : ℤ
  totalLoss : ℤ
  date : String
deriving DecidableEq

/-- The fresh statistics object installed on a date rollover. -/
def freshStats (today : String) : DailyStats :=
  { trades := 0, totalProfit := 0, totalLoss := 0, date := today }

/-- Constant `ethers.parseEther('0.5')`: the daily loss ceiling in wei. -/
def dailyLossLimit : ℤ := 5 * 10 ^ 17

/-- Constant `ethers.parseEther('1.0')`: the per-trade size ceiling in wei. -/
def maxTradeSize : ℕ := 10 ^ 18

/-- Source `RiskManager.resetDailyStats` (src/risk.js lines 21-37): replace the
statistics only when the stored date differs from today. -/
def resetDailyStats (today : String) (s : DailyStats) : DailyStats :=
  if s.date ≠ today then freshStats today else s

/-- Source `RiskManager.detectSuspiciousActivity` (src/risk.js lines 96-99). -/
def detectSuspiciousActivity (opp : Opportunity) : Bool :=
  decide (opp.profitPercent > 10)

/-- The risk-entry list built by `assessTradeRisk` (src/risk.js lines
39-94) over the already-reset statistics; each rule appends zero or one
entry, in source order. -/
def assessRisks (cfg : MevConfig) (opp : Opportunity) (tradeAmount : ℕ)
    (gasPrice : ℕ) (s : DailyStats) : List Risk :=
  (if opp.profitPercent < cfg.minProfitEth * 100 then
    [{ level := .high, reason := "Profit below threshold" }] else []) ++
  (if opp.profitPercent < maxSlippage then
    [{ level := .medium, reason := "Low profit margin vulnerable to slippage" }] else []) ++
  (if gasPrice > gweiLimit cfg then
    [{ level := .high, reason := "Gas price exceeds limit" }] else []) ++
  (if tradeAmount > maxTradeSize then
    [{ level := .high, reason := "Trade size exceeds maximum" }] else []) ++
  (if s.totalLoss ≥ dailyLossLimit then
    [{ level := .critical, reason := "Daily loss limit reached" }] else []) ++
  (if detectSuspiciousActivity opp then
    [{ level := .medium, reason := "Potential frontrunning or sandwich attack detected" }] else [])

/-- Source `RiskManager.assessTradeRisk` (src/risk.js lines 39-94): resets the
daily window first, evaluates the rules, and scores the result. Returns
the assessment together with the stored daily statistics afterwards. -/
def assessTradeRisk (cfg : MevConfig) (today : String) (opp : Opportunity)
    (tradeAmount : ℕ) (gasPrice : ℕ) (s : DailyStats) :
    RiskAssessment × DailyStats :=
  let s₁ := resetDailyStats today s
  (calculateRiskScore (assessRisks cfg opp tradeAmount gasPrice s₁), s₁)

/-- Source `RiskManager.recordTradeResult` (src/risk.js lines 138-155): no date
check; the trade counter always increments, and the floored wei value of
the profit (or of its absolute value) accumulates. -/
def recordTradeResult (tradeAmount : ℕ) (profit : ℚ) (gasUsed : ℕ)
    (s : DailyStats) : DailyStats :=
  let _ := tradeAmount
  let _ := gasUsed
  let s₁ := { s with trades := s.trades + 1 }
  if profit > 0 then
    { s₁ with totalProfit := s₁.totalProfit + ⌊profit * 10 ^ 18⌋ }
  else
    { s₁ with totalLoss := s₁.totalLoss + ⌊|profit| * 10 ^ 18⌋ }

/-- The view returned by `RiskManager.getDailyStats` (src/risk.js lines
157-164): the raw statistics plus the derived net profit; no date check. -/
structure DailyStatsView where
  trades : ℕ
  totalProfit : ℤ
  totalLoss : ℤ
  date : String
  netProfit : ℤ
deriving DecidableEq

/-- Source `RiskManager.getDailyStats` (src/risk.js lines 157-164). -/
def getDailyStats (s : DailyStats) : DailyStatsView :=
  { trades := s.trades, totalProfit := s.totalProfit, totalLoss := s.totalLoss,
    date := s.date, netProfit := s.totalProfit - s.totalLoss }

/-- Source `RiskManager.shouldHaltTrading` (src/risk.js lines 166-169): reset the
window, then compare the cumulative loss with the ceiling. Returns the
flag together with the stored daily statistics afterwards. -/
def shouldHaltTrading (today : String) (s : DailyStats) : Bool × DailyStats :=
  let s₁ := resetDailyStats today s
  (decide (s₁.totalLoss ≥ dailyLossLimit), s₁)

/-- A sequence of `recordTradeResult` calls
(tradeAmount, profit, gasUsed). -/
def applyTradeResults (results : List (ℕ × ℚ × ℕ)) (s : DailyStats) : DailyStats :=
  results.foldl (fun acc r => recordTradeResult r.1 r.2.1 r.2.2 acc) s

/-! ## ArbitrageExecutor (src/executor.js)

The provider and wallet are external collaborators; their observable
answers (wallet presence, balances, gas price) are collected in an
environment record. -/

/-- The external world visible to one scan cycle: the calendar date, the
clock, per-pool reserve reads (`none` = failed fetch), the current gas
price, and the wallet/balance state consulted by the executor. -/
structure ScanEnv where
  today : String
  now : ℕ
  reserves : String → Option (ℕ × ℕ)
  gasPrice : ℕ
  walletPresent : Bool
  ethBalance : ℕ
  tokenBalance : String → ℕ

/-- Constant `this.gasLimit = 300000` (src/executor.js line 23). -/
def gasLimit : ℕ := 300000

/-- Constant `ethers.ZeroAddress`. -/
def zeroAddress : String := "0x0000000000000000000000000000000000000000"

/-- The WETH address literal compared against in `checkBalance`
(src/executor.js line 76). -/
def wethAddress : String := "0xc02aaa39b223fe8d0a0e5c4f27ead9083c756cc2"

/-- Source `ArbitrageExecutor.checkBalance` (src/executor.js lines 74-90): reads
the wallet's ETH balance for ETH/WETH, the ERC20 balance otherwise. -/
def checkBalance (env : ScanEnv) (tokenAddress : String) (requiredAmount : ℕ) : Bool :=
  if tokenAddress == zeroAddress || tokenAddress.toLower == wethAddress then
    decide (env.ethBalance ≥ requiredAmount)
  else
    decide (env.tokenBalance tokenAddress ≥ requiredAmount)

/-- Source `ArbitrageExecutor.calculateOptimalTradeSize` (src/executor.js lines
63-72): always `ethers.parseEther('0.1')`. -/
def calculateOptimalTradeSize : ℕ := 10 ^ 17

/-- The simulated trade result object (src/executor.js lines 102-109). -/
structure TradeResult where
  success : Bool
  tradeAmount : ℕ
  estimatedProfit : ℚ
  gasUsed : ℕ
  exchangeUsed : String × String
  timestamp : ℕ
deriving DecidableEq

/-- Source `ArbitrageExecutor.performArbitrageTrade` (src/executor.js lines
92-113): a pure simulation that always reports success. -/
def performArbitrageTrade (opp : Opportunity) (tradeAmount : ℕ) (now : ℕ) : TradeResult :=
  { success := true, tradeAmount := tradeAmount,
    estimatedProfit := opp.profitPercent, gasUsed := gasLimit,
    exchangeUsed := (opp.pair1.exchange, opp.pair2.exchange), timestamp := now }

/-- Source `ArbitrageExecutor.executeArbitrage` (src/executor.js lines 30-61):
returns `null` without a wallet or when the balance check fails; otherwise
runs the simulated trade. -/
def executeArbitrage (env : ScanEnv) (opp : Opportunity) : Option TradeResult :=
  if env.walletPresent = false then none
  else
    let tradeAmount := calculateOptimalTradeSize
    if checkBalance env opp.token0 tradeAmount then
      some (performArbitrageTrade opp tradeAmount env.now)
    else none

/-- Source `ArbitrageExecutor.isArbitrageProfitable` (src/executor.js lines
126-136): gas cost `gasLimit * gasPrice` wei converted to ETH, profit
estimated on a 0.1 ETH trade. -/
def isArbitrageProfitable (cfg : MevConfig) (gasPrice : ℕ) (opp : Opportunity) : Bool :=
  let gasCostEth : ℚ := ((gasLimit : ℚ) * (gasPrice : ℚ)) / 10 ^ 18
  let estimatedProfitEth : ℚ := opp.profitPercent / 100 * (1 / 10)
  decide (estimatedProfitEth - gasCostEth ≥ cfg.minProfitEth)

/-! ## MEVBot scan loop (src/index.js) -/

/-- The bot counters (src/index.js lines 21-26). -/
structure BotStats where
  scansCompleted : ℕ
  opportunitiesFound : ℕ
  tradesExecuted : ℕ
deriving DecidableEq

/-- The mutable state touched by one scan cycle. -/
structure BotState where
  watchedPairs : List (String × PairInfo)
  priceCache : List (String × PriceData)
  dailyStats : DailyStats
  stats : BotStats

/-- The externally visible actions of one scan cycle, in order. -/
inductive ScanEvent
  | fetchPrice (pairAddress : String)
  | runDetector
  | evaluateOpportunity (opp : Opportunity)
  | executeTrade (opp : Opportunity)
  | logHalt
  | logPerformance
deriving DecidableEq

/-- The concurrent price refresh of `scanForOpportunities` (src/index.js
lines 122-136): each watched pair is fetched; failed fetches leave the
cache untouched; the successful-scan counter counts fulfilled, non-null
results. -/
def fetchPhase (env : ScanEnv) :
    List (String × PairInfo) → List (String × PriceData) →
    ℕ × List (String × PriceData)
  | [], cache => (0, cache)
  | (addr, pair) :: rest, cache =>
      match env.reserves addr with
      | none => fetchPhase env rest cache
      | some (r₀, r₁) =>
          let res := fetchPairPrice pair addr r₀ r₁ env.now cache
          let tail := fetchPhase env rest res.2
          ((if res.1.isSome then 1 else 0) + tail.1, tail.2)

/-- Source `MEVBot.evaluateAndExecuteOpportunity` (src/index.js lines 167-214):
risk assessment, profitability check, simulated execution, and trade
recording; returns whether a trade was executed, the daily statistics
afterwards, and the execution events. -/
def evaluateAndExecuteOpportunity (cfg : MevConfig) (env : ScanEnv)
    (opp : Opportunity) (ds : DailyStats) :
    Bool × DailyStats × List ScanEvent :=
  let tradeAmount : ℕ := 10 ^ 17
  let r := assessTradeRisk cfg env.today opp tradeAmount env.gasPrice ds
  if r.1.approved = false then (false, r.2, [])
  else if isArbitrageProfitable cfg env.gasPrice opp then
    match executeArbitrage env opp with
    | some result =>
        if result.success then
          let profit : ℚ := opp.profitPercent / 100 * (1 / 10)
          (true, recordTradeResult tradeAmount profit result.gasUsed r.2,
            [ScanEvent.executeTrade opp])
        else (false, r.2, [])
    | none => (false, r.2, [])
  else (false, r.2, [])

/-- The top-3 evaluation loop of `scanForOpportunities` (src/index.js
lines 147-157). -/
def evaluateTop (cfg : MevConfig) (env : ScanEnv) :
    List Opportunity → DailyStats → ℕ × DailyStats × List ScanEvent
  | [], ds => (0, ds, [])
  | opp :: rest, ds =>
      let r := evaluateAndExecuteOpportunity cfg env opp ds
      let tail := evaluateTop cfg env rest r.2.1
      ((if r.1 then 1 else 0) + tail.1, tail.2.1,
        ScanEvent.evaluateOpportunity opp :: r.2.2 ++ tail.2.2)

/-- Source `MEVBot.scanForOpportunities` (src/index.js lines 112-165): one scan
cycle, returning the event trace and the state afterwards. When
`shouldHaltTrading()` is true the cycle logs and returns at once. -/
def scanForOpportunities (cfg : MevConfig) (env : ScanEnv) (st : BotState) :
    List ScanEvent × BotState :=
  let halt := shouldHaltTrading env.today st.dailyStats
  if halt.1 then ([ScanEvent.logHalt], { st with dailyStats := halt.2 })
  else
    let fetched := fetchPhase env st.watchedPairs st.priceCache
    let fetchEvents := st.watchedPairs.map fun ap => ScanEvent.fetchPrice ap.1
    let stats₁ := { st.stats with scansCompleted := st.stats.scansCompleted + 1 }
    if 0 < fetched.1 then
      let opps := scanForArbitrageOpportunities cfg env.now (fetched.2.map Prod.snd)
      if opps ≠ [] then
        let run := evaluateTop cfg env (opps.take 3) halt.2
        (fetchEvents ++ [ScanEvent.runDetector] ++ run.2.2 ++ [ScanEvent.logPerformance],
          { st with
            priceCache := fetched.2
            dailyStats := run.2.1
            stats := { stats₁ with
                       opportunitiesFound := stats₁.opportunitiesFound + opps.length
                       tradesExecuted := stats₁.tradesExecuted + run.1 } })
      else
        (fetchEvents ++ [ScanEvent.runDetector, ScanEvent.logPerformance],
          { st with priceCache := fetched.2, dailyStats := halt.2, stats := stats₁ })
    else
      (fetchEvents ++ [ScanEvent.logPerformance],
        { st with priceCache := fetched.2, dailyStats := halt.2, stats := stats₁ })

/-! ## Spec-side comparison definitions and concrete inputs -/

/-- The spec's reading of `recordTradeResult`: the lazy date
check-and-reset runs before the trade is recorded ("lazy check-and-reset
on every access"). To be compared with the source's `recordTradeResult`,
which performs no date check. -/
def recordTradeResultLazy (today : String) (tradeAmount : ℕ) (profit : ℚ)
    (gasUsed : ℕ) (s : DailyStats) : DailyStats :=
  recordTradeResult tradeAmount profit gasUsed (resetDailyStats today s)

/-- The spec's reading of `getDailyStats`: the lazy date check-and-reset
runs before the view is taken. To be compared with the source's
`getDailyStats`, which performs no date check. -/
def getDailyStatsLazy (today : String) (s : DailyStats) : DailyStatsView :=
  getDailyStats (resetDailyStats today s)

/-- Zero out the `timestamp` field of an opportunity, leaving every other
field unchanged. -/
def eraseTimestamp (o : Opportunity) : Opportunity := { o with timestamp := 0 }

/-- A DAI/WETH observation on Uniswap V2 with token1-per-token0 price
1800. -/
def demoPriceA : PriceData :=
  { pairAddress := "0xpairA", token0 := "0xdai", token1 := "0xweth",
    reserve0 := 1, reserve1 := 1800, price0 := 1800, price1 := 1 / 1800,
    exchange := "Uniswap V2", timestamp := 0 }

/-- The same token pair on another venue with price 1900. -/
def demoPriceB : PriceData :=
  { pairAddress := "0xpairB", token0 := "0xdai", token1 := "0xweth",
    reserve0 := 1, reserve1 := 1900, price0 := 1900, price1 := 1 / 1900,
    exchange := "Sushiswap", timestamp := 0 }

/-- An opportunity with a chosen profit percentage. -/
def demoOpp (pp : ℚ) : Opportunity :=
  { pair1 := { address := "0xpairA", exchange := "Uniswap V2", price := 1800 },
    pair2 := { address := "0xpairB", exchange := "Sushiswap", price := 1900 },
    profitPercent := pp, token0 := "0xdai", token1 := "0xweth", timestamp := 0 }

/-- An opportunity trading native ETH (token0 is the zero address). -/
def demoOppEth : Opportunity := { demoOpp 5 with token0 := zeroAddress }

/-- Daily statistics carrying a stale date. -/
def staleStats : DailyStats :=
  { trades := 3, totalProfit := 2, totalLoss := 7, date := "Sun Dec 31 2023" }

/-- The reason string of the frontrunning/manipulation heuristic entry
(src/risk.js line 89). -/
def suspiciousReason : String := "Potential frontrunning or sandwich attack detected"

/-- Whether a risk entry is the suspicious-activity entry. -/
def isSuspiciousEntry (r : Risk) : Bool := r.reason == suspiciousReason

/-- Two high-level risk entries: score exactly 50. -/
def demoRisks50 : List Risk :=
  [{ level := .high, reason := "Gas price exceeds limit" },
   { level := .high, reason := "Trade size exceeds maximum" }]

/-- An environment with no configured wallet. -/
def demoEnvNoWallet : ScanEnv :=
  { today := "Mon Jan 01 2024", now := 0, reserves := fun _ => none,
    gasPrice := 10 ^ 9, walletPresent := false,
    ethBalance := 10 ^ 18, tokenBalance := fun _ => 10 ^ 18 }

/-- A wallet environment with ample balances. -/
def demoEnvRich : ScanEnv := { demoEnvNoWallet with walletPresent := true }

/-- A wallet environment with empty balances. -/
def demoEnvPoor : ScanEnv :=
  { demoEnvRich with ethBalance := 0, tokenBalance := fun _ => 0 }

/-- A scan environment whose risk manager is at the daily loss ceiling. -/
def demoHaltEnv : ScanEnv := demoEnvRich

/-- A bot state that has already accumulated the daily loss ceiling under
today's date. -/
def demoHaltState : BotState :=
  { watchedPairs := [("0xpairA", { token0 := "0xdai", token1 := "0xweth", exchange := "Uniswap V2" })],
    priceCache := [],
    dailyStats := { trades := 1, totalProfit := 0, totalLoss := 5 * 10 ^ 17,
                    date := "Mon Jan 01 2024" },
    stats := { scansCompleted := 0, opportunitiesFound := 0, tradesExecuted := 0 } }

/-! ## Theorems -/

/-- The assessment computed by `calculateRiskScore` on a nonempty risk
list, spelled out. -/
theorem calculateRiskScore_eq (risks : List Risk) (h : risks ≠ []) :
    calculateRiskScore risks =
      { approved := decide (countLevel .critical risks * 100 +
            countLevel .high risks * 25 + countLevel .medium risks * 5 < 50 ∧
            countLevel .critical risks = 0),
        score := countLevel .critical risks * 100 + countLevel .high risks * 25 +
          countLevel .medium risks * 5,
        risks := risks,
        recommendation := some (getRiskRecommendation
          (countLevel .critical risks * 100 + countLevel .high risks * 25 +
            countLevel .medium risks * 5)) } := by
  simp only [calculateRiskScore, if_neg h]

/-- Claim C2: for every list of risk entries, `calculateRiskScore` returns
score `100*critical + 25*high + 5*medium`, and `approved` holds exactly
when the score is below 50 and no critical risk is present; a score of 50
is rejected, a score of 49 without critical risk is approved, and any
critical risk forces rejection. -/
theorem claim2_riskScore (risks : List Risk) :
    (calculateRiskScore risks).score =
      100 * countLevel .critical risks + 25 * countLevel .high risks +
        5 * countLevel .medium risks
  ∧ ((calculateRiskScore risks).approved = true ↔
      (calculateRiskScore risks).score < 50 ∧ countLevel .critical risks = 0)
  ∧ ((calculateRiskScore risks).score = 50 → (calculateRiskScore risks).approved = false)
  ∧ ((calculateRiskScore risks).score = 49 ∧ countLevel .critical risks = 0 →
      (calculateRiskScore risks).approved = true)
  ∧ (0 < countLevel .critical risks → (calculateRiskScore risks).approved = false) := by
  by_cases h : risks = []
  · subst h; decide
  · have he := calculateRiskScore_eq risks h
    simp only [he]
    refine ⟨by ring, by simp [decide_eq_true_eq], ?_, ?_, ?_⟩
    · intro h50
      simp only [decide_eq_false_iff_not]
      rintro ⟨hlt, -⟩
      omega
    · rintro ⟨h49, -⟩
      omega
    · intro hc
      simp only [decide_eq_false_iff_not]
      rintro ⟨-, h0⟩
      omega

/-- Witness for C2 at a concrete input: two high-level risks give score
exactly 50 and are rejected. -/
theorem claim2_riskScore_witness : (calculateRiskScore demoRisks50).approved = false :=
  (claim2_riskScore demoRisks50).2.2.1 (by decide)

/-- Claim C3: once recorded trade results have accumulated a cumulative
loss at or above the daily ceiling, `shouldHaltTrading` answers `true`
exactly while the queried date equals the stored day key; on a different
date it answers `false` and installs statistics whose counters are all
zero. -/
theorem claim3_dailyHalt (results : List (ℕ × ℚ × ℕ)) (init : DailyStats)
    (today : String)
    (h : dailyLossLimit ≤ (applyTradeResults results init).totalLoss) :
    (shouldHaltTrading today (applyTradeResults results init)).1 =
      decide (today = (applyTradeResults results init).date)
  ∧ (shouldHaltTrading today (applyTradeResults results init)).2 =
      (if today = (applyTradeResults results init).date
       then applyTradeResults results init else freshStats today)
  ∧ (freshStats today).trades = 0
  ∧ (freshStats today).totalProfit = 0
  ∧ (freshStats today).totalLoss = 0 := by
  unfold shouldHaltTrading resetDailyStats
  by_cases hd : today = (applyTradeResults results init).date
  · have hne : ¬ (applyTradeResults results init).date ≠ today := by
      simp [hd.symm]
    rw [if_neg hne, if_pos hd]
    refine ⟨?_, rfl, rfl, rfl, rfl⟩
    simp [hd, ge_iff_le, h]
  · have hne : (applyTradeResults results init).date ≠ today := fun hc => hd hc.symm
    rw [if_pos hne, if_neg hd]
    refine ⟨?_, rfl, rfl, rfl, rfl⟩
    simp [hd, freshStats]
    decide

/-- Witness for C3 at a concrete input: one recorded loss of 0.5 reaches
the 0.5 ETH ceiling and halts trading on the same calendar date. -/
theorem claim3_dailyHalt_witness :
    (shouldHaltTrading "Mon Jan 01 2024"
      (applyTradeResults [(0, -(1 / 2), 0)] (freshStats "Mon Jan 01 2024"))).1 = true := by
  have hstats : applyTradeResults [(0, -(1 / 2), 0)] (freshStats "Mon Jan 01 2024") =
      { trades := 1, totalProfit := 0, totalLoss := 5 * 10 ^ 17,
        date := "Mon Jan 01 2024" } := by
    simp only [applyTradeResults, List.foldl_cons, List.foldl_nil, recordTradeResult,
      freshStats]
    norm_num [abs_of_nonpos]
  have h : dailyLossLimit ≤
      (applyTradeResults [(0, -(1 / 2), 0)] (freshStats "Mon Jan 01 2024")).totalLoss := by
    rw [hstats]
    norm_num [dailyLossLimit]
  have h₁ := (claim3_dailyHalt [(0, -(1 / 2), 0)] (freshStats "Mon Jan 01 2024")
    "Mon Jan 01 2024" h).1
  rw [h₁, hstats]
  decide

/-- Counterexample to C7: on a stale date, `recordTradeResult` and
`getDailyStats` do not behave like their check-and-reset-first variants,
so neither performs the lazy date reset. -/
theorem claim7_lazyReset_counterexample :
    recordTradeResult 0 1 0 staleStats ≠
      recordTradeResultLazy "Mon Jan 01 2024" 0 1 0 staleStats
  ∧ getDailyStats staleStats ≠ getDailyStatsLazy "Mon Jan 01 2024" staleStats := by
  constructor
  · intro hc
    have := congrArg DailyStats.date hc
    simp [recordTradeResult, recordTradeResultLazy, resetDailyStats, staleStats,
      freshStats] at this
  · intro hc
    have := congrArg DailyStatsView.date hc
    simp [getDailyStats, getDailyStatsLazy, resetDailyStats, staleStats,
      freshStats] at this

/-- Claim C7 as amended: only `assessTradeRisk` and `shouldHaltTrading`
perform the lazy date check-and-reset before acting; `recordTradeResult`
and `getDailyStats` operate directly on the stored statistics with no date
check. -/
theorem claim7_lazyReset_amended (cfg : MevConfig) (today : String)
    (opp : Opportunity) (amt gas gasU : ℕ) (profit : ℚ) (s : DailyStats) :
    (assessTradeRisk cfg today opp amt gas s).2 = resetDailyStats today s
  ∧ (shouldHaltTrading today s).2 = resetDailyStats today s
  ∧ (shouldHaltTrading today s).1 =
      decide ((resetDailyStats today s).totalLoss ≥ dailyLossLimit)
  ∧ (recordTradeResult amt profit gasU s).date = s.date
  ∧ (recordTradeResult amt profit gasU s).trades = s.trades + 1
  ∧ getDailyStats s =
      { trades := s.trades, totalProfit := s.totalProfit, totalLoss := s.totalLoss,
        date := s.date, netProfit := s.totalProfit - s.totalLoss } := by
  refine ⟨rfl, rfl, rfl, ?_, ?_, rfl⟩
  · unfold recordTradeResult
    by_cases hp : profit > 0
    · rw [if_pos hp]
    · rw [if_neg hp]
  · unfold recordTradeResult
    by_cases hp : profit > 0
    · rw [if_pos hp]
    · rw [if_neg hp]

/-- Claim C8: a zero reserve yields no observation and leaves the cache
untouched, and the detector yields nothing over an empty cache or over a
cache holding a single observation. -/
theorem claim8_zeroReserve (cfg : MevConfig) (pair : PairInfo)
    (pairAddress : String) (r₀ r₁ now : ℕ) (cache : List (String × PriceData))
    (h : r₀ = 0 ∨ r₁ = 0) :
    fetchPairPrice pair pairAddress r₀ r₁ now cache = (none, cache)
  ∧ scanForArbitrageOpportunities cfg now [] = []
  ∧ ∀ p : PriceData, scanForArbitrageOpportunities cfg now [p] = [] := by
  refine ⟨?_, rfl, fun p => rfl⟩
  unfold fetchPairPrice
  rw [if_pos h]

/-- Witness for C8 at a concrete input: `reserve0 = 0`. -/
theorem claim8_zeroReserve_witness :
    fetchPairPrice { token0 := "0xdai", token1 := "0xweth", exchange := "Uniswap V2" }
      "0xpairA" 0 5 0 [] = (none, []) :=
  (claim8_zeroReserve defaultConfig
    { token0 := "0xdai", token1 := "0xweth", exchange := "Uniswap V2" }
    "0xpairA" 0 5 0 [] (Or.inl rfl)).1

/-- Resetting fresh statistics under their own date is the identity. -/
theorem resetDailyStats_fresh (d : String) :
    resetDailyStats d (freshStats d) = freshStats d := by
  simp [resetDailyStats, freshStats]

/-- Counterexample to C6: when no risk rule fires, the assessment returned
by `assessTradeRisk` carries no recommendation at all, while the claim
demands the minimal-risk label for score 0. -/
theorem claim6_recommendation_counterexample :
    (assessTradeRisk defaultConfig "Mon Jan 01 2024" (demoOpp 5) (10 ^ 17) (10 ^ 9)
        (freshStats "Mon Jan 01 2024")).1.recommendation = none
  ∧ getRiskRecommendation 0 = "PROCEED - Minimal risk" := by
  constructor
  · have hr : assessRisks defaultConfig (demoOpp 5) (10 ^ 17) (10 ^ 9)
        (resetDailyStats "Mon Jan 01 2024" (freshStats "Mon Jan 01 2024")) = [] := by
      rw [resetDailyStats_fresh]
      simp only [assessRisks, detectSuspiciousActivity, gweiLimit, defaultConfig,
        demoOpp, freshStats, maxSlippage, maxTradeSize, dailyLossLimit]
      norm_num
    show (calculateRiskScore (assessRisks defaultConfig (demoOpp 5) (10 ^ 17) (10 ^ 9)
      (resetDailyStats "Mon Jan 01 2024" (freshStats "Mon Jan 01 2024")))).recommendation = none
    rw [hr]
    rfl
  · rfl

/-- Claim C6 as amended: an assessment whose risk list is nonempty carries
the banded recommendation label of its score (with exact band boundaries);
an assessment with no risk entries has score 0, is approved, and carries
no recommendation field. -/
theorem claim6_recommendation (cfg : MevConfig) (today : String) (opp : Opportunity)
    (amt gas : ℕ) (s : DailyStats) :
    ((assessTradeRisk cfg today opp amt gas s).1.risks ≠ [] →
      (assessTradeRisk cfg today opp amt gas s).1.recommendation =
        some (getRiskRecommendation (assessTradeRisk cfg today opp amt gas s).1.score))
  ∧ ((assessTradeRisk cfg today opp amt gas s).1.risks = [] →
      (assessTradeRisk cfg today opp amt gas s).1.recommendation = none
      ∧ (assessTradeRisk cfg today opp amt gas s).1.score = 0
      ∧ (assessTradeRisk cfg today opp amt gas s).1.approved = true)
  ∧ (∀ sc : ℕ, 100 ≤ sc → getRiskRecommendation sc = "REJECT - Critical risks present")
  ∧ (∀ sc : ℕ, 50 ≤ sc → sc < 100 → getRiskRecommendation sc = "REJECT - High risk")
  ∧ (∀ sc : ℕ, 25 ≤ sc → sc < 50 → getRiskRecommendation sc = "CAUTION - Medium risk")
  ∧ (∀ sc : ℕ, 10 ≤ sc → sc < 25 → getRiskRecommendation sc = "PROCEED - Low risk")
  ∧ (∀ sc : ℕ, sc < 10 → getRiskRecommendation sc = "PROCEED - Minimal risk") := by
  refine ⟨?_, ?_, ?_, ?_, ?_, ?_, ?_⟩
  · intro hne
    by_cases hrs : assessRisks cfg opp amt gas (resetDailyStats today s) = []
    · exact absurd (by simp [assessTradeRisk, hrs, calculateRiskScore]) hne
    · show (calculateRiskScore _).recommendation = some (getRiskRecommendation
        (calculateRiskScore _).score)
      rw [calculateRiskScore_eq _ hrs]
  · intro hnil
    by_cases hrs : assessRisks cfg opp amt gas (resetDailyStats today s) = []
    · refine ⟨?_, ?_, ?_⟩ <;>
        simp [assessTradeRisk, hrs, calculateRiskScore]
    · exfalso
      apply hrs
      have : (assessTradeRisk cfg today opp amt gas s).1.risks =
          assessRisks cfg opp amt gas (resetDailyStats today s) := by
        show (calculateRiskScore _).risks = _
        rw [calculateRiskScore_eq _ hrs]
      rw [← this]
      exact hnil
  · intro sc hsc
    unfold getRiskRecommendation
    rw [if_pos hsc]
  · intro sc h₁ h₂
    unfold getRiskRecommendation
    rw [if_neg (by omega), if_pos h₁]
  · intro sc h₁ h₂
    unfold getRiskRecommendation
    rw [if_neg (by omega), if_neg (by omega), if_pos h₁]
  · intro sc h₁ h₂
    unfold getRiskRecommendation
    rw [if_neg (by omega), if_neg (by omega), if_neg (by omega), if_pos h₁]
  · intro sc h₁
    unfold getRiskRecommendation
    rw [if_neg (by omega), if_neg (by omega), if_neg (by omega), if_neg (by omega)]

/-- Witness for C6 at concrete inputs: a low-profit opportunity fires two
rules and gets the banded label; the band boundaries evaluate as stated. -/
theorem claim6_recommendation_witness :
    (assessTradeRisk defaultConfig "Mon Jan 01 2024" (demoOpp (1 / 2)) (10 ^ 17) (10 ^ 9)
        (freshStats "Mon Jan 01 2024")).1.recommendation =
      some (getRiskRecommendation
        (assessTradeRisk defaultConfig "Mon Jan 01 2024" (demoOpp (1 / 2)) (10 ^ 17) (10 ^ 9)
          (freshStats "Mon Jan 01 2024")).1.score)
  ∧ getRiskRecommendation 100 = "REJECT - Critical risks present"
  ∧ getRiskRecommendation 50 = "REJECT - High risk"
  ∧ getRiskRecommendation 25 = "CAUTION - Medium risk"
  ∧ getRiskRecommendation 10 = "PROCEED - Low risk"
  ∧ getRiskRecommendation 9 = "PROCEED - Minimal risk" := by
  have hrs : assessRisks defaultConfig (demoOpp (1 / 2)) (10 ^ 17) (10 ^ 9)
      (resetDailyStats "Mon Jan 01 2024" (freshStats "Mon Jan 01 2024")) =
      [{ level := .high, reason := "Profit below threshold" },
       { level := .medium, reason := "Low profit margin vulnerable to slippage" }] := by
    rw [resetDailyStats_fresh]
    simp only [assessRisks, detectSuspiciousActivity, gweiLimit, defaultConfig,
      demoOpp, freshStats, maxSlippage, maxTradeSize, dailyLossLimit]
    norm_num
  have hne : (assessTradeRisk defaultConfig "Mon Jan 01 2024" (demoOpp (1 / 2)) (10 ^ 17)
      (10 ^ 9) (freshStats "Mon Jan 01 2024")).1.risks ≠ [] := by
    show (calculateRiskScore _).risks ≠ []
    rw [hrs]
    simp [calculateRiskScore]
  have hc := claim6_recommendation defaultConfig "Mon Jan 01 2024" (demoOpp (1 / 2))
    (10 ^ 17) (10 ^ 9) (freshStats "Mon Jan 01 2024")
  exact ⟨hc.1 hne, hc.2.2.1 100 (by omega), hc.2.2.2.1 50 (by omega) (by omega),
    hc.2.2.2.2.1 25 (by omega) (by omega), hc.2.2.2.2.2.1 10 (by omega) (by omega),
    hc.2.2.2.2.2.2 9 (by omega)⟩

/-- Counterexample to C9: with no wallet, or with an insufficient balance,
`executeArbitrage` returns no success result, and changing only the
wallet balances changes its outcome, so the execution path does consult
balance state. -/
theorem claim9_executor_counterexample :
    executeArbitrage demoEnvNoWallet demoOppEth = none
  ∧ executeArbitrage demoEnvPoor demoOppEth = none
  ∧ executeArbitrage demoEnvRich demoOppEth ≠ executeArbitrage demoEnvPoor demoOppEth := by
  refine ⟨rfl, ?_, ?_⟩ <;> decide

/-- Claim C9 as amended: the inner simulated trade `performArbitrageTrade`
always reports success and carries the trade size, estimated profit, gas
used, and both exchange labels; `executeArbitrage` itself returns that
simulated result only when a wallet is configured and the balance check
passes, and returns `none` otherwise. -/
theorem claim9_executor_spec (opp : Opportunity) (amt now : ℕ) (env : ScanEnv) :
    (performArbitrageTrade opp amt now).success = true
  ∧ (performArbitrageTrade opp amt now).tradeAmount = amt
  ∧ (performArbitrageTrade opp amt now).estimatedProfit = opp.profitPercent
  ∧ (performArbitrageTrade opp amt now).gasUsed = gasLimit
  ∧ (performArbitrageTrade opp amt now).exchangeUsed =
      (opp.pair1.exchange, opp.pair2.exchange)
  ∧ (env.walletPresent = false → executeArbitrage env opp = none)
  ∧ (env.walletPresent = true →
      checkBalance env opp.token0 calculateOptimalTradeSize = false →
      executeArbitrage env opp = none)
  ∧ (env.walletPresent = true →
      checkBalance env opp.token0 calculateOptimalTradeSize = true →
      executeArbitrage env opp =
        some (performArbitrageTrade opp calculateOptimalTradeSize env.now)) := by
  refine ⟨rfl, rfl, rfl, rfl, rfl, ?_, ?_, ?_⟩
  · intro h
    simp [executeArbitrage, h]
  · intro hw hb
    simp [executeArbitrage, hw, hb]
  · intro hw hb
    simp [executeArbitrage, hw, hb]

/-- Witness for C9 at concrete inputs: a funded wallet environment runs
the simulated trade. -/
theorem claim9_executor_spec_witness :
    executeArbitrage demoEnvRich demoOppEth =
      some (performArbitrageTrade demoOppEth calculateOptimalTradeSize demoEnvRich.now) :=
  (claim9_executor_spec demoOppEth 0 0 demoEnvRich).2.2.2.2.2.2.2
    (by decide) (by decide)

/-- Claim C4: a scan cycle that starts with `shouldHaltTrading()` true
emits only the halt log: it fetches no pool price, never runs the
detector, evaluates or executes no opportunity, and leaves the price
cache and the bot counters untouched. -/
theorem claim4_haltSkipsScan (cfg : MevConfig) (env : ScanEnv) (st : BotState)
    (h : (shouldHaltTrading env.today st.dailyStats).1 = true) :
    (scanForOpportunities cfg env st).1 = [ScanEvent.logHalt]
  ∧ (∀ a, ScanEvent.fetchPrice a ∉ (scanForOpportunities cfg env st).1)
  ∧ ScanEvent.runDetector ∉ (scanForOpportunities cfg env st).1
  ∧ (∀ o, ScanEvent.evaluateOpportunity o ∉ (scanForOpportunities cfg env st).1)
  ∧ (∀ o, ScanEvent.executeTrade o ∉ (scanForOpportunities cfg env st).1)
  ∧ (scanForOpportunities cfg env st).2.priceCache = st.priceCache
  ∧ (scanForOpportunities cfg env st).2.stats = st.stats := by
  have he : scanForOpportunities cfg env st =
      ([ScanEvent.logHalt],
        { st with dailyStats := (shouldHaltTrading env.today st.dailyStats).2 }) := by
    simp only [scanForOpportunities, h, if_true]
  rw [he]
  refine ⟨rfl, ?_, ?_, ?_, ?_, rfl, rfl⟩ <;> simp

/-- Witness for C4 at a concrete input: a state at the daily loss ceiling
skips the cycle. -/
theorem claim4_haltSkipsScan_witness :
    (scanForOpportunities defaultConfig demoHaltEnv demoHaltState).1 =
      [ScanEvent.logHalt] :=
  (claim4_haltSkipsScan defaultConfig demoHaltEnv demoHaltState (by decide)).1

/-- A rule block that is not the suspicious-activity entry contributes
nothing to the suspicious filter. -/
theorem filter_suspicious_if (c : Prop) [Decidable c] (e : Risk)
    (he : isSuspiciousEntry e = false) :
    (if c then [e] else []).filter isSuspiciousEntry = [] := by
  by_cases hc : c <;> simp [hc, he]

/-- Claim C10: whenever the profit percentage exceeds 10, `assessTradeRisk`
appends exactly one medium-level suspicious-activity entry, and when no
other rule fires the assessment scores 5 and is approved — the heuristic
alone never rejects. -/
theorem claim10_suspicious (cfg : MevConfig) (today : String) (opp : Opportunity)
    (amt gas : ℕ) (s : DailyStats) (h10 : opp.profitPercent > 10) :
    (assessTradeRisk cfg today opp amt gas s).1.risks.filter isSuspiciousEntry =
      [{ level := .medium, reason := suspiciousReason }]
  ∧ (¬ opp.profitPercent < cfg.minProfitEth * 100 → ¬ gas > gweiLimit cfg →
      ¬ amt > maxTradeSize →
      ¬ (resetDailyStats today s).totalLoss ≥ dailyLossLimit →
      (assessTradeRisk cfg today opp amt gas s).1.score = 5
      ∧ (assessTradeRisk cfg today opp amt gas s).1.approved = true) := by
  have hF : detectSuspiciousActivity opp = true := by
    simp only [detectSuspiciousActivity, decide_eq_true_eq]
    exact h10
  have hB : ¬ (opp.profitPercent < maxSlippage) := by
    simp only [maxSlippage]
    intro hc
    linarith
  have hrs : assessRisks cfg opp amt gas (resetDailyStats today s) =
      (if opp.profitPercent < cfg.minProfitEth * 100 then
        [{ level := .high, reason := "Profit below threshold" }] else []) ++
      ((if gas > gweiLimit cfg then
        [{ level := .high, reason := "Gas price exceeds limit" }] else []) ++
      ((if amt > maxTradeSize then
        [{ level := .high, reason := "Trade size exceeds maximum" }] else []) ++
      ((if (resetDailyStats today s).totalLoss ≥ dailyLossLimit then
        [{ level := .critical, reason := "Daily loss limit reached" }] else []) ++
      [{ level := .medium, reason := suspiciousReason }]))) := by
    simp only [assessRisks, hF, if_neg hB, suspiciousReason, List.nil_append,
      List.append_nil, if_true, List.append_assoc]
  have hne : assessRisks cfg opp amt gas (resetDailyStats today s) ≠ [] := by
    rw [hrs]
    intro hc
    simp [List.append_eq_nil] at hc
  constructor
  · show (calculateRiskScore (assessRisks cfg opp amt gas
      (resetDailyStats today s))).risks.filter isSuspiciousEntry = _
    rw [calculateRiskScore_eq _ hne, hrs]
    simp only [List.filter_append,
      filter_suspicious_if _ _ (by decide : isSuspiciousEntry
        { level := .high, reason := "Profit below threshold" } = false),
      filter_suspicious_if _ _ (by decide : isSuspiciousEntry
        { level := .high, reason := "Gas price exceeds limit" } = false),
      filter_suspicious_if _ _ (by decide : isSuspiciousEntry
        { level := .high, reason := "Trade size exceeds maximum" } = false),
      filter_suspicious_if _ _ (by decide : isSuspiciousEntry
        { level := .critical, reason := "Daily loss limit reached" } = false),
      List.nil_append]
    decide
  · intro h₁ h₃ h₄ h₅
    have hrs₅ : assessRisks cfg opp amt gas (resetDailyStats today s) =
        [{ level := .medium, reason := suspiciousReason }] := by
      rw [hrs, if_neg h₁, if_neg h₃, if_neg h₄, if_neg h₅]
      simp
    constructor
    · show (calculateRiskScore (assessRisks cfg opp amt gas
        (resetDailyStats today s))).score = 5
      rw [hrs₅]
      decide
    · show (calculateRiskScore (assessRisks cfg opp amt gas
        (resetDailyStats today s))).approved = true
      rw [hrs₅]
      decide

/-- Witness for C10 at concrete inputs: a 12% opportunity with benign gas,
size and loss state scores 5 and is approved. -/
theorem claim10_suspicious_witness :
    (assessTradeRisk defaultConfig "Mon Jan 01 2024" (demoOpp 12) (10 ^ 17) (10 ^ 9)
        (freshStats "Mon Jan 01 2024")).1.score = 5
  ∧ (assessTradeRisk defaultConfig "Mon Jan 01 2024" (demoOpp 12) (10 ^ 17) (10 ^ 9)
        (freshStats "Mon Jan 01 2024")).1.approved = true :=
  (claim10_suspicious defaultConfig "Mon Jan 01 2024" (demoOpp 12) (10 ^ 17) (10 ^ 9)
      (freshStats "Mon Jan 01 2024") (by norm_num [demoOpp])).2
    (by norm_num [demoOpp, defaultConfig])
    (by decide)
    (by decide)
    (by rw [resetDailyStats_fresh]; norm_num [freshStats, dailyLossLimit])

/-- The nested loop collects exactly the `scanStep` results over the
(i, j), i < j position pairs in encounter order. -/
theorem scanCollect_eq_filterMap (cfg : MevConfig) (now : ℕ) :
    ∀ l : List PriceData, scanCollect cfg now l =
      (orderedPairs l).filterMap fun pq => scanStep cfg now pq.1 pq.2
  | [] => rfl
  | p :: rest => by
      simp only [scanCollect, orderedPairs, List.filterMap_append, List.filterMap_map,
        scanCollect_eq_filterMap cfg now rest]
      rfl

/-- Inserting an element permutes consing it. -/
theorem insertDesc_perm (a : Opportunity) : ∀ l, List.Perm (insertDesc a l) (a :: l)
  | [] => List.Perm.refl _
  | b :: l => by
      unfold insertDesc
      by_cases h : b.profitPercent ≤ a.profitPercent
      · rw [if_pos h]
      · rw [if_neg h]
        exact ((insertDesc_perm a l).cons b).trans (List.Perm.swap a b l)

/-- The stable sort permutes its input. -/
theorem sortDesc_perm : ∀ l, List.Perm (sortDesc l) l
  | [] => List.Perm.refl _
  | a :: l => (insertDesc_perm a (sortDesc l)).trans ((sortDesc_perm l).cons a)

/-- Insertion preserves descending sortedness by `profitPercent`. -/
theorem insertDesc_sorted (a : Opportunity) {l : List Opportunity}
    (hl : l.Pairwise fun x y => y.profitPercent ≤ x.profitPercent) :
    (insertDesc a l).Pairwise fun x y => y.profitPercent ≤ x.profitPercent := by
  induction l with
  | nil => simp [insertDesc]
  | cons b l ih =>
      rw [List.pairwise_cons] at hl
      obtain ⟨hb, hl₁⟩ := hl
      unfold insertDesc
      by_cases h : b.profitPercent ≤ a.profitPercent
      · rw [if_pos h]
        refine List.Pairwise.cons ?_ (List.Pairwise.cons hb hl₁)
        intro x hx
        rcases List.mem_cons.mp hx with rfl | hx₁
        · exact h
        · exact le_trans (hb x hx₁) h
      · rw [if_neg h]
        refine List.Pairwise.cons ?_ (ih hl₁)
        intro x hx
        rcases List.mem_cons.mp ((insertDesc_perm a l).mem_iff.mp hx) with rfl | hx₁
        · exact le_of_lt (lt_of_not_le h)
        · exact hb x hx₁

/-- The stable sort output is descending in `profitPercent`. -/
theorem sortDesc_sorted : ∀ l : List Opportunity,
    (sortDesc l).Pairwise fun x y => y.profitPercent ≤ x.profitPercent
  | [] => List.Pairwise.nil
  | a :: l => insertDesc_sorted a (sortDesc_sorted l)

/-- The elements of one `profitPercent` tie class, after insertion. -/
theorem filter_insertDesc (q : ℚ) (a : Opportunity) :
    ∀ l, (insertDesc a l).filter (fun o => decide (o.profitPercent = q)) =
      if a.profitPercent = q
      then a :: l.filter (fun o => decide (o.profitPercent = q))
      else l.filter (fun o => decide (o.profitPercent = q))
  | [] => by
      by_cases h : a.profitPercent = q <;> simp [insertDesc, h]
  | b :: l => by
      unfold insertDesc
      by_cases hba : b.profitPercent ≤ a.profitPercent
      · rw [if_pos hba]
        by_cases h : a.profitPercent = q <;> simp [h, List.filter_cons]
      · rw [if_neg hba]
        by_cases h : a.profitPercent = q
        · have hbq : ¬ b.profitPercent = q := fun hc =>
            hba (le_of_eq (hc.trans h.symm))
          simp [List.filter_cons, filter_insertDesc q a l, h, hbq]
        · simp [List.filter_cons, filter_insertDesc q a l, h]

/-- Stability: the stable sort leaves every `profitPercent` tie class in
input order. -/
theorem sortDesc_filter (q : ℚ) :
    ∀ l, (sortDesc l).filter (fun o => decide (o.profitPercent = q)) =
      l.filter (fun o => decide (o.profitPercent = q))
  | [] => rfl
  | a :: l => by
      unfold sortDesc
      rw [filter_insertDesc, sortDesc_filter q l, List.filter_cons]
      by_cases h : a.profitPercent = q <;> simp [h]

/-- Function `hasSameTokenPair` answers exactly equality of the unordered token
sets. -/
theorem hasSameTokenPair_iff (p₁ p₂ : PriceData) :
    hasSameTokenPair p₁ p₂ = true ↔
      ({p₁.token0, p₁.token1} : Set String) = {p₂.token0, p₂.token1} := by
  rw [Set.pair_eq_pair_iff]
  simp [hasSameTokenPair]

/-- Past the token-pair test and the noise floor, `scanStep` reduces to
the threshold test. -/
theorem scanStep_reduce (cfg : MevConfig) (now : ℕ) (p₁ p₂ : PriceData)
    (hs : hasSameTokenPair p₁ p₂ = true)
    (h₁ : ¬ profitPercentCalc p₁ p₂ < 1 / 10) :
    scanStep cfg now p₁ p₂ =
      if profitPercentCalc p₁ p₂ > cfg.minProfitEth * 100
      then some (mkOpportunity now p₁ p₂) else none := by
  unfold scanStep calculateArbitrage
  rw [if_pos hs, if_neg h₁]
  rfl

/-- The opportunity pushed for a pair of observations, characterised: it
is produced exactly when the token sets agree, the profit percentage
clears the 0.1 noise floor, and it exceeds the configured threshold. -/
theorem scanStep_iff (cfg : MevConfig) (now : ℕ) (p₁ p₂ : PriceData) :
    (scanStep cfg now p₁ p₂ = some (mkOpportunity now p₁ p₂) ↔
      ({p₁.token0, p₁.token1} : Set String) = {p₂.token0, p₂.token1}
      ∧ 1 / 10 ≤ profitPercentCalc p₁ p₂
      ∧ cfg.minProfitEth * 100 < profitPercentCalc p₁ p₂)
  ∧ (scanStep cfg now p₁ p₂ = none ∨
      scanStep cfg now p₁ p₂ = some (mkOpportunity now p₁ p₂)) := by
  by_cases hs : hasSameTokenPair p₁ p₂ = true
  · by_cases h₁ : profitPercentCalc p₁ p₂ < 1 / 10
    · have he : scanStep cfg now p₁ p₂ = none := by
        unfold scanStep calculateArbitrage
        rw [if_pos hs, if_pos h₁]
      rw [he]
      refine ⟨⟨fun hc => by simp at hc, ?_⟩, Or.inl rfl⟩
      rintro ⟨-, h₂, -⟩
      exact absurd h₁ (not_lt_of_le h₂)
    · rw [scanStep_reduce cfg now p₁ p₂ hs h₁]
      by_cases h₂ : profitPercentCalc p₁ p₂ > cfg.minProfitEth * 100
      · rw [if_pos h₂]
        exact ⟨⟨fun _ => ⟨(hasSameTokenPair_iff p₁ p₂).mp hs, le_of_not_lt h₁, h₂⟩,
          fun _ => rfl⟩, Or.inr rfl⟩
      · rw [if_neg h₂]
        refine ⟨⟨fun hc => by simp at hc, ?_⟩, Or.inl rfl⟩
        rintro ⟨-, -, h₃⟩
        exact absurd h₃ h₂
  · have he : scanStep cfg now p₁ p₂ = none := by
      unfold scanStep
      rw [if_neg hs]
    rw [he]
    refine ⟨⟨fun hc => by simp at hc, ?_⟩, Or.inl rfl⟩
    rintro ⟨ht, -, -⟩
    exact absurd ((hasSameTokenPair_iff p₁ p₂).mpr ht) hs

/-- Claim C1: over the cached observations, the detector produces exactly
one opportunity per position pair (i, j), i < j, namely when the two
observations share an unordered token set, the computed profit percentage
is at least 0.1, and it strictly exceeds `minProfitEth * 100`; the output
is a permutation of those per-pair results, sorted descending by
`profitPercent`, with every tie class kept in encounter order. -/
theorem claim1_detector (cfg : MevConfig) (now : ℕ) (prices : List PriceData) :
    (∀ p₁ p₂ : PriceData,
      (scanStep cfg now p₁ p₂ = some (mkOpportunity now p₁ p₂) ↔
        ({p₁.token0, p₁.token1} : Set String) = {p₂.token0, p₂.token1}
        ∧ 1 / 10 ≤ profitPercentCalc p₁ p₂
        ∧ cfg.minProfitEth * 100 < profitPercentCalc p₁ p₂)
      ∧ (scanStep cfg now p₁ p₂ = none ∨
          scanStep cfg now p₁ p₂ = some (mkOpportunity now p₁ p₂)))
  ∧ List.Perm (scanForArbitrageOpportunities cfg now prices)
      ((orderedPairs prices).filterMap (fun pq => scanStep cfg now pq.1 pq.2))
  ∧ (scanForArbitrageOpportunities cfg now prices).Pairwise
      (fun a b => b.profitPercent ≤ a.profitPercent)
  ∧ (∀ q : ℚ,
      (scanForArbitrageOpportunities cfg now prices).filter
          (fun o => decide (o.profitPercent = q)) =
        ((orderedPairs prices).filterMap (fun pq => scanStep cfg now pq.1 pq.2)).filter
          (fun o => decide (o.profitPercent = q))) := by
  refine ⟨fun p₁ p₂ => scanStep_iff cfg now p₁ p₂, ?_, sortDesc_sorted _, ?_⟩
  · rw [← scanCollect_eq_filterMap]
    exact sortDesc_perm _
  · intro q
    rw [← scanCollect_eq_filterMap]
    exact sortDesc_filter q _

/-- Function `scanStep` depends on the clock only through the opportunity's
`timestamp` field. -/
theorem scanStep_map_erase (cfg : MevConfig) (n₁ n₂ : ℕ) (p₁ p₂ : PriceData) :
    (scanStep cfg n₁ p₁ p₂).map eraseTimestamp =
      (scanStep cfg n₂ p₁ p₂).map eraseTimestamp := by
  by_cases hs : hasSameTokenPair p₁ p₂ = true
  · by_cases h₁ : profitPercentCalc p₁ p₂ < 1 / 10
    · have he : ∀ n, scanStep cfg n p₁ p₂ = none := fun n => by
        unfold scanStep calculateArbitrage
        rw [if_pos hs, if_pos h₁]
      rw [he n₁, he n₂]
    · rw [scanStep_reduce cfg n₁ p₁ p₂ hs h₁, scanStep_reduce cfg n₂ p₁ p₂ hs h₁]
      by_cases h₂ : profitPercentCalc p₁ p₂ > cfg.minProfitEth * 100
      · rw [if_pos h₂, if_pos h₂]
        rfl
      · rw [if_neg h₂, if_neg h₂]
  · have he : ∀ n, scanStep cfg n p₁ p₂ = none := fun n => by
      unfold scanStep
      rw [if_neg hs]
    rw [he n₁, he n₂]

/-- The collected opportunities of two runs differ only in timestamps. -/
theorem scanCollect_map_erase (cfg : MevConfig) (n₁ n₂ : ℕ) :
    ∀ l : List PriceData,
      (scanCollect cfg n₁ l).map eraseTimestamp =
        (scanCollect cfg n₂ l).map eraseTimestamp
  | [] => rfl
  | p :: rest => by
      simp only [scanCollect, List.map_append, List.map_filterMap]
      rw [scanCollect_map_erase cfg n₁ n₂ rest]
      have hf : (fun x => Option.map eraseTimestamp (scanStep cfg n₁ p x)) =
          fun x => Option.map eraseTimestamp (scanStep cfg n₂ p x) :=
        funext fun q => scanStep_map_erase cfg n₁ n₂ p q
      rw [hf]

/-- Erasing timestamps commutes with the insertion step (the sort key is
untouched). -/
theorem map_erase_insertDesc (a : Opportunity) :
    ∀ l, (insertDesc a l).map eraseTimestamp =
      insertDesc (eraseTimestamp a) (l.map eraseTimestamp)
  | [] => rfl
  | b :: l => by
      by_cases h : b.profitPercent ≤ a.profitPercent
      · simp only [List.map_cons, insertDesc, if_pos h,
          if_pos (show (eraseTimestamp b).profitPercent ≤
            (eraseTimestamp a).profitPercent from h)]
      · simp only [List.map_cons, insertDesc, if_neg h,
          if_neg (show ¬ (eraseTimestamp b).profitPercent ≤
            (eraseTimestamp a).profitPercent from h)]
        rw [map_erase_insertDesc a l]

/-- Erasing timestamps commutes with the stable sort. -/
theorem map_erase_sortDesc :
    ∀ l : List Opportunity,
      (sortDesc l).map eraseTimestamp = sortDesc (l.map eraseTimestamp)
  | [] => rfl
  | a :: l => by
      show (insertDesc a (sortDesc l)).map eraseTimestamp = _
      rw [map_erase_insertDesc, map_erase_sortDesc l]
      rfl

/-- Counterexample to C5: the detector stamps each opportunity with
`Date.now()`, so two runs over the same unchanged cache at different
clock readings return opportunities with different timestamp fields. -/
theorem claim5_detector_counterexample :
    scanForArbitrageOpportunities defaultConfig 0 [demoPriceA, demoPriceB] ≠
      scanForArbitrageOpportunities defaultConfig 1 [demoPriceA, demoPriceB] := by
  have hpp : profitPercentCalc demoPriceA demoPriceB = 200 / 37 := by
    simp only [profitPercentCalc, demoPriceA, demoPriceB]
    norm_num
  have hstep : ∀ n, scanStep defaultConfig n demoPriceA demoPriceB =
      some (mkOpportunity n demoPriceA demoPriceB) := by
    intro n
    rw [scanStep_reduce defaultConfig n demoPriceA demoPriceB rfl
      (by rw [hpp]; norm_num)]
    rw [if_pos (show profitPercentCalc demoPriceA demoPriceB >
      defaultConfig.minProfitEth * 100 from by
        rw [hpp, show defaultConfig.minProfitEth = 1 / 100 from rfl]
        norm_num)]
  have hscan : ∀ n, scanForArbitrageOpportunities defaultConfig n
      [demoPriceA, demoPriceB] = [mkOpportunity n demoPriceA demoPriceB] := by
    intro n
    show sortDesc (scanCollect defaultConfig n [demoPriceA, demoPriceB]) = _
    simp only [scanCollect, List.filterMap_cons, List.filterMap_nil, hstep n]
    rfl
  rw [hscan 0, hscan 1]
  intro hc
  simp [mkOpportunity] at hc

/-- Claim C5 as amended: the detector is deterministic in the cache and
the clock — two runs over the same unchanged cache agree everywhere except
possibly each opportunity's timestamp field, and agree exactly when the
clock reading is the same. -/
theorem claim5_detector_time (cfg : MevConfig) (n₁ n₂ : ℕ)
    (prices : List PriceData) :
    (scanForArbitrageOpportunities cfg n₁ prices).map eraseTimestamp =
      (scanForArbitrageOpportunities cfg n₂ prices).map eraseTimestamp
  ∧ (n₁ = n₂ → scanForArbitrageOpportunities cfg n₁ prices =
      scanForArbitrageOpportunities cfg n₂ prices) := by
  constructor
  · show (sortDesc (scanCollect cfg n₁ prices)).map eraseTimestamp =
      (sortDesc (scanCollect cfg n₂ prices)).map eraseTimestamp
    rw [map_erase_sortDesc, map_erase_sortDesc, scanCollect_map_erase cfg n₁ n₂]
  · rintro rfl
    rfl

/-- Witness for C5 at a concrete input: with the same clock reading the
two runs agree. -/
theorem claim5_detector_time_witness :
    scanForArbitrageOpportunities defaultConfig 0 [demoPriceA, demoPriceB] =
      scanForArbitrageOpportunities defaultConfig 0 [demoPriceA, demoPriceB] :=
  (claim5_detector_time defaultConfig 0 0 [demoPriceA, demoPriceB]).2 rfl

end MEVBot
